import Mathlib

/-!
Shallow embedding of `src/invoice_service.py` (invoice pricing pipeline).
Python floats are modelled as exact rationals `ℚ`; Python lists as `List`;
the `raise ValueError(msg)` path of `compute_total` as `Except.error msg`.
-/

namespace InvoiceLab

/-- A purchased product line (`LineItem` dataclass). -/
structure LineItem where
  sku : String
  category : String
  unit_price : ℚ
  qty : Int
  fragile : Bool := false
deriving DecidableEq, Repr

/-- One order to be priced (`Invoice` dataclass). -/
structure Invoice where
  invoice_id : String
  customer_id : String
  country : String
  membership : String
  coupon : Option String
  items : List LineItem
deriving DecidableEq, Repr

/-- The `self._coupon_rate` dict, as a lookup function (Python dict `in`/`[]`). -/
def coupon_rate (code : String) : Option ℚ :=
  if code = "WELCOME10" then some 0.10
  else if code = "VIP20" then some 0.20
  else if code = "STUDENT5" then some 0.05
  else none

/-- Problems contributed by a single item inside the `for it in inv.items`
loop of `_validate`; the four `if` checks append independently, in order. -/
def itemProblems (it : LineItem) : List String :=
  (if it.sku = "" then ["Item sku is missing"] else []) ++
  (if it.qty ≤ 0 then ["Invalid qty for " ++ it.sku] else []) ++
  (if it.unit_price < 0 then ["Invalid price for " ++ it.sku] else []) ++
  (if it.category ∈ ["book", "food", "electronics", "other"] then []
   else ["Unknown category for " ++ it.sku])

/-- `_validate`: the argument is optional to model the Python `inv is None`
early return; header problems are appended first, then each item's problems
in item order (the loop never short-circuits). -/
def validate (inv : Option Invoice) : List String :=
  match inv with
  | none => ["Invoice is missing"]
  | some inv =>
    ((if inv.invoice_id = "" then ["Missing invoice_id"] else []) ++
     (if inv.customer_id = "" then ["Missing customer_id"] else []) ++
     (if inv.items = [] then ["Invoice must contain items"] else [])) ++
    inv.items.flatMap itemProblems

/-- `_calculate_subtotal_and_fragile_fee`: one pass over the items with two
accumulators, `subtotal += unit_price * qty` and, when `fragile`,
`fragile_fee += 5.0 * qty`. -/
def calculate_subtotal_and_fragile_fee (items : List LineItem) : ℚ × ℚ :=
  items.foldl
    (fun acc it =>
      (acc.1 + it.unit_price * (it.qty : ℚ),
       if it.fragile then acc.2 + 5.0 * (it.qty : ℚ) else acc.2))
    (0, 0)

/-- The `shipping_rates` dict of `_calculate_shipping`, as a lookup function:
country ↦ (threshold, base_fee). -/
def shipping_rates (country : String) : Option (ℚ × ℚ) :=
  if country = "TH" then some (500, 60)
  else if country = "JP" then some (4000, 600)
  else if country = "US" then some (100, 15)
  else none

/-- `_calculate_shipping`: configured countries use their (threshold, base_fee)
pair with a strict `<` comparison; unconfigured countries use 25 below 200. -/
def calculate_shipping (country : String) (subtotal : ℚ) : ℚ :=
  match shipping_rates country with
  | some tb => if subtotal < tb.1 then tb.2 else 0
  | none => if subtotal < 200 then 25 else 0

/-- `_calculate_base_discount`: first match wins among gold (3%),
platinum (5%), volume > 3000 (flat 20), else 0. -/
def calculate_base_discount (membership : String) (subtotal : ℚ) : ℚ :=
  if membership = "gold" then subtotal * 0.03
  else if membership = "platinum" then subtotal * 0.05
  else if subtotal > 3000 then 20
  else 0.0

/-- Python `str.strip()` whitespace test, restricted to the ASCII whitespace
characters (space, tab, newline, carriage return, vertical tab, form feed). -/
def isPyWhitespace (c : Char) : Bool :=
  c == ' ' || c == '\t' || c == '\n' || c == '\r' || c == Char.ofNat 11 || c == Char.ofNat 12

/-- Python `str.strip()`: drop whitespace from both ends of the string. -/
def pyStrip (s : String) : String :=
  String.mk (((s.data.dropWhile isPyWhitespace).reverse.dropWhile isPyWhitespace).reverse)

/-- `_apply_coupon`: an absent or blank-after-strip coupon yields (0, []);
otherwise the stripped code is looked up case-sensitively, giving either
`subtotal * rate` or the single warning "Unknown coupon". -/
def apply_coupon (coupon : Option String) (subtotal : ℚ) : ℚ × List String :=
  match coupon with
  | none => (0.0, [])
  | some c =>
    if pyStrip c ≠ "" then
      let code := pyStrip c
      match coupon_rate code with
      | some r => (subtotal * r, [])
      | none => (0.0, ["Unknown coupon"])
    else (0.0, [])

/-- The `tax_rates` dict of `_calculate_tax`, as a lookup function. -/
def tax_rates (country : String) : Option ℚ :=
  if country = "TH" then some 0.07
  else if country = "JP" then some 0.10
  else if country = "US" then some 0.08
  else none

/-- `_calculate_tax`: `(subtotal - discount) * rate` with the 0.05 default
for unconfigured countries (`dict.get(country, 0.05)`). -/
def calculate_tax (country : String) (subtotal discount : ℚ) : ℚ :=
  let rate := (tax_rates country).getD 0.05
  (subtotal - discount) * rate

/-- Python `sep.join(strs)` for a list of strings. -/
def joinSep (sep : String) : List String → String
  | [] => ""
  | [a] => a
  | a :: b :: rest => a ++ sep ++ joinSep sep (b :: rest)

/-- `compute_total`: validate, then subtotal/fragile fee, shipping, base
discount, coupon (its warnings extended first), tax on (subtotal − total
discount), clamp the final total at 0, then the optional upgrade warning. -/
def compute_total (inv : Invoice) : Except String (ℚ × List String) :=
  let problems := validate (some inv)
  if problems ≠ [] then
    Except.error (joinSep "; " problems)
  else
    let sf := calculate_subtotal_and_fragile_fee inv.items
    let subtotal := sf.1
    let fragile_fee := sf.2
    let shipping := calculate_shipping inv.country subtotal
    let base_discount := calculate_base_discount inv.membership subtotal
    let cw := apply_coupon inv.coupon subtotal
    let coupon_discount := cw.1
    let coupon_warnings := cw.2
    let discount := base_discount + coupon_discount
    let tax := calculate_tax inv.country subtotal discount
    let total := max (subtotal + shipping + fragile_fee + tax - discount) 0.0
    let warnings := coupon_warnings ++
      (if subtotal > 10000 ∧ inv.membership ∉ ["gold", "platinum"] then
        ["Consider membership upgrade"] else [])
    Except.ok (total, warnings)

/-! ## Named intermediate quantities of compute_total (its local variables) -/

/-- The `subtotal` local of `compute_total`. -/
def subtotalOf (inv : Invoice) : ℚ := (calculate_subtotal_and_fragile_fee inv.items).1

/-- The `fragile_fee` local of `compute_total`. -/
def fragileFeeOf (inv : Invoice) : ℚ := (calculate_subtotal_and_fragile_fee inv.items).2

/-- The `shipping` local of `compute_total`. -/
def shippingOf (inv : Invoice) : ℚ := calculate_shipping inv.country (subtotalOf inv)

/-- The final `discount` local of `compute_total` (base plus coupon discount). -/
def totalDiscountOf (inv : Invoice) : ℚ :=
  calculate_base_discount inv.membership (subtotalOf inv)
    + (apply_coupon inv.coupon (subtotalOf inv)).1

/-- The coupon warnings extended into `warnings` by `compute_total`. -/
def couponWarningsOf (inv : Invoice) : List String :=
  (apply_coupon inv.coupon (subtotalOf inv)).2

/-- The `tax` local of `compute_total`. -/
def taxOf (inv : Invoice) : ℚ :=
  calculate_tax inv.country (subtotalOf inv) (totalDiscountOf inv)

/-! ## Helper lemmas -/

lemma joinSep_single (sep a : String) : joinSep sep [a] = a := rfl

lemma joinSep_cons_cons (sep a b : String) (l : List String) :
    joinSep sep (a :: b :: l) = a ++ sep ++ joinSep sep (b :: l) := rfl

lemma helper_mem_joinSep (sep : String) (l : List String) (a : String) (h : a ∈ l) :
    ∃ p q, joinSep sep l = p ++ a ++ q := by
  induction l with
  | nil => cases h
  | cons b tail ih =>
    cases tail with
    | nil =>
      rcases List.mem_singleton.mp h with rfl
      exact ⟨"", "", by simp [joinSep_single, String.empty_append, String.append_empty]⟩
    | cons c rest =>
      rcases List.mem_cons.mp h with rfl | hmem
      · refine ⟨"", sep ++ joinSep sep (c :: rest), ?_⟩
        rw [joinSep_cons_cons, String.empty_append, String.append_assoc]
      · obtain ⟨p, q, hpq⟩ := ih hmem
        refine ⟨b ++ sep ++ p, q, ?_⟩
        simp only [joinSep_cons_cons, hpq, String.append_assoc]

lemma helper_foldl_sf (items : List LineItem) (a b : ℚ) :
    items.foldl
      (fun acc it =>
        (acc.1 + it.unit_price * (it.qty : ℚ),
         if it.fragile then acc.2 + 5.0 * (it.qty : ℚ) else acc.2)) (a, b)
    = (a + (items.map fun it => it.unit_price * (it.qty : ℚ)).sum,
       b + (items.map fun it => if it.fragile then 5.0 * (it.qty : ℚ) else 0).sum) := by
  induction items generalizing a b with
  | nil => simp
  | cons it rest ih =>
    simp only [List.foldl_cons, List.map_cons, List.sum_cons, ih, Prod.mk.injEq]
    constructor
    · ring
    · split <;> ring

lemma helper_sf_eq (items : List LineItem) :
    calculate_subtotal_and_fragile_fee items =
      ((items.map fun it => it.unit_price * (it.qty : ℚ)).sum,
       (items.map fun it => if it.fragile then 5.0 * (it.qty : ℚ) else 0).sum) := by
  unfold calculate_subtotal_and_fragile_fee
  rw [helper_foldl_sf]
  simp

lemma helper_coupon_warnings (coupon : Option String) (subtotal : ℚ) :
    (apply_coupon coupon subtotal).2 = [] ∨
    (apply_coupon coupon subtotal).2 = ["Unknown coupon"] := by
  unfold apply_coupon
  cases coupon with
  | none => left; rfl
  | some c =>
    by_cases h : pyStrip c = ""
    · simp [h]
    · simp only [h]
      cases hc : coupon_rate (pyStrip c) <;> simp [hc, h]

lemma helper_compute_total_err (inv : Invoice) (h : validate (some inv) ≠ []) :
    compute_total inv = Except.error (joinSep "; " (validate (some inv))) := by
  unfold compute_total
  simp [h]

lemma helper_compute_total_eq (inv : Invoice) (h : validate (some inv) = []) :
    compute_total inv = Except.ok
      (max (subtotalOf inv + shippingOf inv + fragileFeeOf inv + taxOf inv
            - totalDiscountOf inv) 0,
       couponWarningsOf inv ++
         (if subtotalOf inv > 10000 ∧ inv.membership ∉ ["gold", "platinum"] then
           ["Consider membership upgrade"] else [])) := by
  simp only [compute_total, subtotalOf, shippingOf, fragileFeeOf, taxOf,
    totalDiscountOf, couponWarningsOf, h, ne_eq, not_true_eq_false, if_false,
    not_false_eq_true, if_true]
  norm_num


/-! ## Concrete invoices used as witnesses -/

/-- The line item of spec Scenario 3. -/
def item8 : LineItem :=
  { sku := "A", category := "book", unit_price := 100, qty := 2, fragile := true }

/-- The invoice of spec Scenario 3. -/
def inv8 : Invoice :=
  { invoice_id := "I1", customer_id := "C1", country := "US", membership := "none",
    coupon := none, items := [item8] }

/-- An item violating three validation rules at once. -/
def itemBad : LineItem :=
  { sku := "", category := "junk", unit_price := 1, qty := 0, fragile := false }

/-- An invoice containing `itemBad`. -/
def invBad : Invoice :=
  { invoice_id := "I2", customer_id := "C2", country := "US", membership := "none",
    coupon := none, items := [itemBad] }

/-- A large valid invoice with an unrecognized coupon. -/
def invBig : Invoice :=
  { invoice_id := "I3", customer_id := "C3", country := "TH", membership := "none",
    coupon := some "BOGUS",
    items := [{ sku := "B", category := "food", unit_price := 6000, qty := 2,
                fragile := false }] }

/-! ## Claims -/

/-- C1: compute_total raises a validation error iff the validator's problem list
is non-empty; the error message is exactly the problems joined by "; " and no
(total, warnings) pair is produced; with an empty problem list it returns a
pair and raises no error. -/
theorem C1_validation_error_contract (inv : Invoice) :
    (validate (some inv) ≠ [] →
      compute_total inv = Except.error (joinSep "; " (validate (some inv))) ∧
      ∀ t w, compute_total inv ≠ Except.ok (t, w)) ∧
    (validate (some inv) = [] →
      (∃ t w, compute_total inv = Except.ok (t, w)) ∧
      ∀ msg, compute_total inv ≠ Except.error msg) := by
  constructor
  · intro h
    have he := helper_compute_total_err inv h
    exact ⟨he, fun t w hw => by rw [he] at hw; cases hw⟩
  · intro h
    have he := helper_compute_total_eq inv h
    exact ⟨⟨_, _, he⟩, fun msg hm => by rw [he] at hm; cases hm⟩

/-- Witness for C1 at the Scenario-3 invoice, whose problem list is empty. -/
theorem C1_validation_error_contract_witness :
    (∃ t w, compute_total inv8 = Except.ok (t, w)) ∧
    ∀ msg, compute_total inv8 ≠ Except.error msg :=
  (C1_validation_error_contract inv8).2 (by decide)

/-- C2: for every invoice passing validation, the total equals
max(0, subtotal + shipping + fragile_fee + tax − discount), hence is ≥ 0. -/
theorem C2_total_clamped_nonneg (inv : Invoice) (h : validate (some inv) = []) :
    (∃ w, compute_total inv = Except.ok
      (max 0 (subtotalOf inv + shippingOf inv + fragileFeeOf inv + taxOf inv
              - totalDiscountOf inv), w)) ∧
    ∀ t w, compute_total inv = Except.ok (t, w) → 0 ≤ t := by
  have he := helper_compute_total_eq inv h
  rw [max_comm] at he
  refine ⟨⟨_, he⟩, ?_⟩
  intro t w hw
  rw [he] at hw
  injection hw with hpair
  injection hpair with h1 h2
  exact h1 ▸ le_max_left 0 _

/-- Witness for C2 at the Scenario-3 invoice. -/
theorem C2_total_clamped_nonneg_witness :
    (∃ w, compute_total inv8 = Except.ok
      (max 0 (subtotalOf inv8 + shippingOf inv8 + fragileFeeOf inv8 + taxOf inv8
              - totalDiscountOf inv8), w)) ∧
    ∀ t w, compute_total inv8 = Except.ok (t, w) → 0 ≤ t :=
  C2_total_clamped_nonneg inv8 (by decide)

/-- C3: tax equals (subtotal − discount) times the country rate (TH 0.07,
JP 0.10, US 0.08, default 0.05); the tax base is not clamped, so a discount
exceeding the subtotal makes the tax negative. -/
theorem C3_tax_base_unclamped (country : String) (subtotal discount : ℚ) :
    calculate_tax country subtotal discount =
      (subtotal - discount) *
        (if country = "TH" then 0.07 else if country = "JP" then 0.10
         else if country = "US" then 0.08 else 0.05) ∧
    (subtotal < discount → calculate_tax country subtotal discount < 0) := by
  have hrate : calculate_tax country subtotal discount =
      (subtotal - discount) *
        (if country = "TH" then 0.07 else if country = "JP" then 0.10
         else if country = "US" then 0.08 else 0.05) := by
    simp only [calculate_tax, tax_rates]
    split_ifs <;> rfl
  refine ⟨hrate, fun hlt => ?_⟩
  rw [hrate]
  apply mul_neg_of_neg_of_pos
  · linarith
  · split_ifs <;> norm_num

/-- Witness for C3: an unconfigured country with discount above subtotal. -/
theorem C3_tax_base_unclamped_witness : calculate_tax "DE" 10 25 < 0 :=
  (C3_tax_base_unclamped "DE" 10 25).2 (by norm_num)

/-- C4: shipping for TH/JP/US is the configured base fee strictly below the
configured threshold and 0 at or above it; any other country pays 25 below
200 and 0 at or above. -/
theorem C4_shipping_thresholds (country : String) (subtotal : ℚ) :
    (country = "TH" →
      calculate_shipping country subtotal = if subtotal < 500 then 60 else 0) ∧
    (country = "JP" →
      calculate_shipping country subtotal = if subtotal < 4000 then 600 else 0) ∧
    (country = "US" →
      calculate_shipping country subtotal = if subtotal < 100 then 15 else 0) ∧
    (country ∉ ["TH", "JP", "US"] →
      calculate_shipping country subtotal = if subtotal < 200 then 25 else 0) := by
  refine ⟨?_, ?_, ?_, ?_⟩ <;> intro h
  · subst h; simp [calculate_shipping, shipping_rates]
  · subst h; simp [calculate_shipping, shipping_rates]
  · subst h; simp [calculate_shipping, shipping_rates]
  · simp only [List.mem_cons, List.mem_singleton, List.not_mem_nil, or_false,
      not_or] at h
    obtain ⟨h1, h2, h3⟩ := h
    simp [calculate_shipping, shipping_rates, h1, h2, h3]

/-- Witness for C4: Thailand just below its 500 threshold. -/
theorem C4_shipping_thresholds_witness :
    calculate_shipping "TH" 499 = if (499 : ℚ) < 500 then 60 else 0 :=
  (C4_shipping_thresholds "TH" 499).1 rfl

/-- C5: base discount by first match — gold 3%, platinum 5%, else flat 20 above
3000, else 0; members never also get the flat 20 (gold at 5000 gives 150). -/
theorem C5_base_discount_first_match (membership : String) (subtotal : ℚ) :
    (membership = "gold" →
      calculate_base_discount membership subtotal = subtotal * 0.03) ∧
    (membership = "platinum" →
      calculate_base_discount membership subtotal = subtotal * 0.05) ∧
    (membership ≠ "gold" → membership ≠ "platinum" → subtotal > 3000 →
      calculate_base_discount membership subtotal = 20) ∧
    (membership ≠ "gold" → membership ≠ "platinum" → subtotal ≤ 3000 →
      calculate_base_discount membership subtotal = 0) ∧
    calculate_base_discount "gold" 5000 = 150 := by
  refine ⟨?_, ?_, ?_, ?_, ?_⟩
  · intro h; subst h; simp [calculate_base_discount]
  · intro h; subst h; simp [calculate_base_discount]
  · intro h1 h2 h3; simp [calculate_base_discount, h1, h2, h3]
  · intro h1 h2 h3
    simp only [calculate_base_discount, h1, h2, if_false]
    rw [if_neg (not_lt.mpr h3)]
    norm_num
  · norm_num [calculate_base_discount]

/-- Witness for C5: a gold member above the volume threshold still gets 3%. -/
theorem C5_base_discount_first_match_witness :
    calculate_base_discount "gold" 4000 = 4000 * 0.03 :=
  (C5_base_discount_first_match "gold" 4000).1 rfl

/-- C6: coupon policy — absent/blank coupons give 0 and no warning; a known
trimmed code gives subtotal × rate and no warning; an unknown non-blank code
gives 0 and exactly the warning "Unknown coupon"; " WELCOME10 " on 1000 gives
discount 100 and no warning. -/
theorem C6_coupon_policy (coupon : Option String) (subtotal : ℚ) :
    (coupon = none → apply_coupon coupon subtotal = (0, [])) ∧
    (∀ c, coupon = some c → pyStrip c = "" →
      apply_coupon coupon subtotal = (0, [])) ∧
    (∀ c r, coupon = some c → coupon_rate (pyStrip c) = some r →
      apply_coupon coupon subtotal = (subtotal * r, [])) ∧
    (∀ c, coupon = some c → pyStrip c ≠ "" → coupon_rate (pyStrip c) = none →
      apply_coupon coupon subtotal = (0, ["Unknown coupon"])) ∧
    apply_coupon (some " WELCOME10 ") 1000 = (100, []) := by
  refine ⟨?_, ?_, ?_, ?_, ?_⟩
  · rintro rfl; norm_num [apply_coupon]
  · rintro c rfl hc; norm_num [apply_coupon, hc]
  · rintro c r rfl hr
    have hne : pyStrip c ≠ "" := by
      intro he
      rw [he] at hr
      simp [coupon_rate] at hr
    simp [apply_coupon, hne, hr]
  · rintro c rfl hne hr; norm_num [apply_coupon, hne, hr]
  · have hstrip : pyStrip " WELCOME10 " = "WELCOME10" := by decide
    have hne : ¬("WELCOME10" : String) = "" := by decide
    norm_num [apply_coupon, hstrip, hne, coupon_rate]

/-- Witness for C6: the whitespace-trimmed recognized coupon of Scenario 5. -/
theorem C6_coupon_policy_witness :
    apply_coupon (some " WELCOME10 ") 1000 = (1000 * 0.10, []) :=
  (C6_coupon_policy (some " WELCOME10 ") 1000).2.2.1 " WELCOME10 " 0.10 rfl
    (by rw [(by decide : pyStrip " WELCOME10 " = "WELCOME10")]
        norm_num [coupon_rate])

/-- C7: the validator accumulates all problems; an item with an empty sku,
non-positive qty, and unknown category makes compute_total fail with one
message containing all three problem fragments. -/
theorem C7_validator_accumulates (inv : Invoice) (it : LineItem)
    (hmem : it ∈ inv.items) (hsku : it.sku = "") (hqty : it.qty ≤ 0)
    (hcat : it.category ∉ ["book", "food", "electronics", "other"]) :
    ∃ msg, compute_total inv = Except.error msg ∧
      (∃ p q, msg = p ++ "Item sku is missing" ++ q) ∧
      (∃ p q, msg = p ++ ("Invalid qty for " ++ it.sku) ++ q) ∧
      (∃ p q, msg = p ++ ("Unknown category for " ++ it.sku) ++ q) := by
  have hup : ∀ s, s ∈ itemProblems it → s ∈ validate (some inv) := by
    intro s hs
    simp only [validate, List.mem_append, List.mem_flatMap]
    exact Or.inr ⟨it, hmem, hs⟩
  have h1 : "Item sku is missing" ∈ itemProblems it := by
    simp [itemProblems, hsku, hqty, hcat]
  have h2 : ("Invalid qty for " ++ it.sku) ∈ itemProblems it := by
    simp [itemProblems, hsku, hqty, hcat]
  have h3 : ("Unknown category for " ++ it.sku) ∈ itemProblems it := by
    simp [itemProblems, hsku, hqty, hcat]
  have hne : validate (some inv) ≠ [] := List.ne_nil_of_mem (hup _ h1)
  exact ⟨_, helper_compute_total_err inv hne,
    helper_mem_joinSep _ _ _ (hup _ h1),
    helper_mem_joinSep _ _ _ (hup _ h2),
    helper_mem_joinSep _ _ _ (hup _ h3)⟩

/-- Witness for C7: a concrete invoice whose only item breaks all three rules. -/
theorem C7_validator_accumulates_witness :
    ∃ msg, compute_total invBad = Except.error msg ∧
      (∃ p q, msg = p ++ "Item sku is missing" ++ q) ∧
      (∃ p q, msg = p ++ ("Invalid qty for " ++ itemBad.sku) ++ q) ∧
      (∃ p q, msg = p ++ ("Unknown category for " ++ itemBad.sku) ++ q) :=
  C7_validator_accumulates invBad itemBad (by simp [invBad]) rfl (by decide)
    (by decide)

/-- C8: Scenario 3 evaluates exactly as specified, and in general the subtotal
is the sum of unit_price × qty and the fragile fee the sum of 5.0 × qty over
fragile items. -/
theorem C8_scenario3 :
    compute_total inv8 = Except.ok (226, []) ∧
    calculate_subtotal_and_fragile_fee inv8.items = (200, 10) ∧
    calculate_shipping "US" 200 = 0 ∧
    calculate_base_discount "none" 200 = 0 ∧
    calculate_tax "US" 200 0 = 16 ∧
    ∀ items : List LineItem,
      calculate_subtotal_and_fragile_fee items =
        ((items.map fun it => it.unit_price * (it.qty : ℚ)).sum,
         (items.map fun it => if it.fragile then 5.0 * (it.qty : ℚ) else 0).sum) := by
  refine ⟨?_, ?_, ?_, ?_, ?_, helper_sf_eq⟩
  · simp [compute_total, validate, itemProblems, inv8, item8,
      calculate_subtotal_and_fragile_fee, calculate_shipping, shipping_rates,
      calculate_base_discount, apply_coupon, calculate_tax, tax_rates]
    norm_num
  · norm_num [calculate_subtotal_and_fragile_fee, inv8, item8]
  · simp [calculate_shipping, shipping_rates]
    norm_num
  · simp [calculate_base_discount]
    norm_num
  · simp [calculate_tax, tax_rates]
    norm_num

/-- C9: the upgrade warning is appended iff subtotal > 10000 and membership is
neither gold nor platinum, and the warnings are the coupon warnings followed by
that warning. -/
theorem C9_upgrade_warning (inv : Invoice) (t : ℚ) (w : List String)
    (h : compute_total inv = Except.ok (t, w)) :
    w = couponWarningsOf inv ++
        (if subtotalOf inv > 10000 ∧ inv.membership ∉ ["gold", "platinum"] then
          ["Consider membership upgrade"] else []) ∧
    ("Consider membership upgrade" ∈ w ↔
      subtotalOf inv > 10000 ∧ inv.membership ∉ ["gold", "platinum"]) := by
  have hv : validate (some inv) = [] := by
    by_contra hne
    rw [helper_compute_total_err inv hne] at h
    cases h
  rw [helper_compute_total_eq inv hv] at h
  injection h with hpair
  injection hpair with h1 h2
  subst h2
  refine ⟨rfl, ?_, ?_⟩
  · intro hm
    rcases List.mem_append.mp hm with hm1 | hm2
    · rcases helper_coupon_warnings inv.coupon (subtotalOf inv) with he | hu
      · rw [couponWarningsOf, he] at hm1; cases hm1
      · rw [couponWarningsOf, hu] at hm1
        simp at hm1
    · by_cases hcond : subtotalOf inv > 10000 ∧ inv.membership ∉ ["gold", "platinum"]
      · exact hcond
      · rw [if_neg hcond] at hm2; cases hm2
  · intro hcond
    rw [if_pos hcond]
    exact List.mem_append.mpr (Or.inr (List.mem_singleton.mpr rfl))

/-- Witness for C9: a 12000-subtotal non-member invoice with a bogus coupon. -/
theorem C9_upgrade_warning_witness :
    ["Unknown coupon", "Consider membership upgrade"] =
      couponWarningsOf invBig ++
        (if subtotalOf invBig > 10000 ∧ invBig.membership ∉ ["gold", "platinum"]
         then ["Consider membership upgrade"] else []) ∧
    ("Consider membership upgrade" ∈ ["Unknown coupon", "Consider membership upgrade"] ↔
      subtotalOf invBig > 10000 ∧ invBig.membership ∉ ["gold", "platinum"]) :=
  C9_upgrade_warning invBig 12818.6 ["Unknown coupon", "Consider membership upgrade"]
    (by
      have hstrip : pyStrip "BOGUS" = "BOGUS" := by decide
      simp [compute_total, validate, itemProblems, invBig,
        calculate_subtotal_and_fragile_fee, calculate_shipping, shipping_rates,
        calculate_base_discount, apply_coupon, hstrip, coupon_rate,
        calculate_tax, tax_rates]
      norm_num)

/-- C10: the warnings of every successful computation form a subsequence of
the list of the two possible warning strings, in that order. -/
theorem C10_warnings_sublist (inv : Invoice) (t : ℚ) (w : List String)
    (h : compute_total inv = Except.ok (t, w)) :
    List.Sublist w ["Unknown coupon", "Consider membership upgrade"] := by
  have hv : validate (some inv) = [] := by
    by_contra hne
    rw [helper_compute_total_err inv hne] at h
    cases h
  rw [helper_compute_total_eq inv hv] at h
  injection h with hpair
  injection hpair with h1 h2
  subst h2
  rcases helper_coupon_warnings inv.coupon (subtotalOf inv) with hcw | hcw <;>
    rw [couponWarningsOf, hcw] <;>
    by_cases hcond : subtotalOf inv > 10000 ∧ inv.membership ∉ ["gold", "platinum"]
  all_goals first
    | (rw [if_pos hcond]; decide)
    | (rw [if_neg hcond]; decide)

/-- Witness for C10 at the invoice producing both warnings. -/
theorem C10_warnings_sublist_witness :
    List.Sublist ["Unknown coupon", "Consider membership upgrade"]
      ["Unknown coupon", "Consider membership upgrade"] :=
  C10_warnings_sublist invBig 12818.6 ["Unknown coupon", "Consider membership upgrade"]
    (by
      have hstrip : pyStrip "BOGUS" = "BOGUS" := by decide
      simp [compute_total, validate, itemProblems, invBig,
        calculate_subtotal_and_fragile_fee, calculate_shipping, shipping_rates,
        calculate_base_discount, apply_coupon, hstrip, coupon_rate,
        calculate_tax, tax_rates]
      norm_num)

end InvoiceLab
